import Mathlib

/-!
# Verification of the vSphere cluster-autoscaler cloud provider

Shallow embedding of the node-group sizing and inventory subsystem of the
vSphere cloud provider plugin (`cluster-autoscaler/cloudprovider/vsphere`).

The Go code is embedded as pure Lean functions.  The external vSphere
platform (govmomi / vAPI REST endpoints) is modelled as a record of
response functions (`VspherePlatform`): each remote call either succeeds
with a value or fails with an error message, mirroring Go's
`(value, error)` returns via `Except String`.  Mutation of the node
group's `targetSize` pointer is modelled by explicit state passing.
Go `int` is modelled as `Int` (no overflow is at issue in any property
considered here).
-/

namespace Vsphere

/-- `mo.Reference` / `ManagedObjectReference`: an opaque identifier for a
platform inventory object.  Only equality and the `Value` field (used as a
provider id by `getNodes`) are relied upon by the code. -/
structure ManagedObjectRef where
  value : String
deriving DecidableEq, Repr

/-- A vAPI tag: `tags.Tag` with the two fields the code reads (`ID`, `Name`). -/
structure Tag where
  id : String
  name : String
deriving DecidableEq, Repr

/-- The external vSphere management plane, as seen through the calls the
code makes.  Each field is one remote endpoint; `Except String` carries the
Go `error` result of the call.  This is the environment the embedded code
runs against, not code of the repository. -/
structure VspherePlatform where
  /-- `tags.Manager.GetTags`: list all tags. -/
  getTags : Except String (List Tag)
  /-- `tags.Manager.ListAttachedObjects`: objects attached to a tag id. -/
  listAttachedObjects : String → Except String (List ManagedObjectRef)
  /-- `VsphereClient.CreateVirtualMachine` viewed end-to-end: cloning the
  template to `name` in the given datacenter/resource pool either completes
  or fails (finder errors, clone task errors).  Arguments in source order:
  name, datacenter, resourcePool, template. -/
  createVirtualMachine : String → String → String → String → Except String Unit

/-- `Contain` (vsphere_client.go): linear scan deciding whether `node` is
one of `nodeGroups`. -/
def Contain (node : ManagedObjectRef) (nodeGroups : List ManagedObjectRef) : Bool :=
  match nodeGroups with
  | [] => false
  | ng :: rest => if node = ng then true else Contain node rest

/-- `VsphereClient.ContainObjects`: keep the child objects that also occur
among the parent objects (appending in child order). -/
def ContainObjects (parentObjects childObjects : List ManagedObjectRef) :
    List ManagedObjectRef :=
  match childObjects with
  | [] => []
  | c :: rest =>
    if Contain c parentObjects then c :: ContainObjects parentObjects rest
    else ContainObjects parentObjects rest

/-- `VsphereClient.GetTagID`: list all tags and return the id of the first
tag whose name matches; the error from `GetTags` is discarded (`tags, _ :=`),
so a failed listing behaves like an empty listing and yields `""`, exactly
as a missing tag does. -/
def GetTagID (c : VspherePlatform) (tag : String) : String :=
  match c.getTags with
  | .error _ => ""
  | .ok ts =>
    match ts.find? (fun t => t.name = tag) with
    | some t => t.id
    | none => ""

/-- `VsphereClient.GetObjectsFromTag`: resolve the tag name to an id, then
list attached objects; the error from `ListAttachedObjects` is discarded
(`objects, _ :=`), so a failed call yields the nil slice, i.e. `[]`. -/
def GetObjectsFromTag (c : VspherePlatform) (tag : String) : List ManagedObjectRef :=
  let tagID := GetTagID c tag
  match c.listAttachedObjects tagID with
  | .error _ => []
  | .ok objects => objects

/-- The fields of `vsphereManager` used by the sizing/provisioning code
(cluster name, placement configuration, and the client handle, here the
platform model itself). -/
structure VsphereManager where
  clusterName : String
  datacenter : String
  resourcePool : String
  template : String
  vsphereClient : VspherePlatform

/-- `vsphereManager.nodeGroupSize`: size of the node group as reported by
tags — the number of objects carrying both the cluster tag and the
node-group tag.  The function never returns a non-nil error. -/
def nodeGroupSize (mgr : VsphereManager) (nodeGroup : String) : Except String Nat :=
  let clusterMachines := GetObjectsFromTag mgr.vsphereClient ("k8s-cluster-" ++ mgr.clusterName)
  let nodeGroupMachines := GetObjectsFromTag mgr.vsphereClient ("k8s-nodegroup-" ++ nodeGroup)
  let nodes := ContainObjects clusterMachines nodeGroupMachines
  .ok nodes.length

/-- `vsphereManager.getNodes`: provider ids (`Reference().Value`) of all
members of the node group.  Never returns a non-nil error. -/
def getNodes (mgr : VsphereManager) (nodeGroup : String) : Except String (List String) :=
  let clusterMachines := GetObjectsFromTag mgr.vsphereClient ("k8s-cluster-" ++ mgr.clusterName)
  let nodeGroupMachines := GetObjectsFromTag mgr.vsphereClient ("k8s-nodegroup-" ++ nodeGroup)
  let nodes := ContainObjects clusterMachines nodeGroupMachines
  .ok (nodes.map (fun n => n.value))

/-- `fmt.Sprintf "%02d"` for the non-negative sequence numbers produced by
`createNodes`: decimal digits, left-padded with `0` to width 2. -/
def format02d (n : Nat) : String :=
  let s := toString n
  if s.length < 2 then "0" ++ s else s

/-- The VM name synthesized by the loop body of `createNodes` for loop
index `i` when `nodes` VMs were requested:
`fmt.Sprintf("%s-%s-%02d", mgr.clusterName, nodeGroup, i+nodes+1)`. -/
def nodeName (mgr : VsphereManager) (nodeGroup : String) (nodes i : Nat) : String :=
  mgr.clusterName ++ "-" ++ nodeGroup ++ "-" ++ format02d (i + nodes + 1)

/-- `vsphereManager.createNode`: clone the template under the given name;
propagates the clone error. -/
def createNode (mgr : VsphereManager) (name : String) : Except String Unit :=
  mgr.vsphereClient.createVirtualMachine name mgr.datacenter mgr.resourcePool mgr.template

/-- The names attempted by `createNodes`' loop `for i := 0; i < nodes; i++`,
in order.  A non-positive `nodes` runs the loop zero times. -/
def createNodesNames (mgr : VsphereManager) (nodeGroup : String) (nodes : Int) : List String :=
  (List.range nodes.toNat).map (fun i => nodeName mgr nodeGroup nodes.toNat i)

/-- `vsphereManager.createNodes`, with its observable behaviour made
explicit: the list of clone attempts (name paired with the per-VM outcome
of `createNode`, whose value the Go loop discards) and the returned error.
The loop body ignores `createNode`'s result, so every iteration runs and
the function always returns nil. -/
def createNodes (mgr : VsphereManager) (nodeGroup : String) (nodes : Int) :
    List (String × Except String Unit) × Except String Unit :=
  let attempts := (createNodesNames mgr nodeGroup nodes).map
    (fun name => (name, createNode mgr name))
  (attempts, .ok ())

/-- `vsphereNodeGroup` (the mutex-guarded variant): the per-group state.
The `targetSize` pointer becomes a plain field updated by state passing;
the shared `clusterUpdateMutex` has no effect on the sequential
input/output behaviour modelled here. -/
structure VsphereNodeGroup where
  vsphereManager : VsphereManager
  id : String
  minSize : Int
  maxSize : Int
  targetSize : Int

/-- `vsphereNodeGroup.MaxSize`. -/
def MaxSize (ng : VsphereNodeGroup) : Int := ng.maxSize

/-- `vsphereNodeGroup.MinSize`. -/
def MinSize (ng : VsphereNodeGroup) : Int := ng.minSize

/-- `vsphereNodeGroup.TargetSize`: returns the cached target size, never an
error. -/
def TargetSize (ng : VsphereNodeGroup) : Except String Int := .ok ng.targetSize

/-- Outcome of one `IncreaseSize` call: the node group state after the
call, the returned error, and the `createNodes` invocations made on the
manager during the call (node-group id and node count). -/
structure IncreaseSizeOutcome where
  ng : VsphereNodeGroup
  result : Except String Unit
  createNodesCalls : List (String × Int)

/-- `vsphereNodeGroup.IncreaseSize`: validate `delta > 0`, read the live
platform size via `nodeGroupSize`, check `size + delta ≤ MaxSize()`,
optimistically bump `targetSize`, then ask the manager for `delta` new
nodes.  Lock/unlock of `clusterUpdateMutex` brackets the body and is not
part of the sequential data flow. -/
def IncreaseSize (ng : VsphereNodeGroup) (delta : Int) : IncreaseSizeOutcome :=
  if delta ≤ 0 then
    ⟨ng, .error "node group size increase must be positive", []⟩
  else
    match nodeGroupSize ng.vsphereManager ng.id with
    | .error e => ⟨ng, .error ("could not check current nodegroup size: " ++ e), []⟩
    | .ok size =>
      if (size : Int) + delta > MaxSize ng then
        ⟨ng, .error ("size increase too large, desired:" ++ toString ((size : Int) + delta)
          ++ " max:" ++ toString (MaxSize ng)), []⟩
      else
        let ng' := { ng with targetSize := ng.targetSize + delta }
        match (createNodes ng.vsphereManager ng.id delta).2 with
        | .error e => ⟨ng', .error ("could not increase cluster size: " ++ e),
            [(ng.id, delta)]⟩
        | .ok _ => ⟨ng', .ok (), [(ng.id, delta)]⟩

/-- A Kubernetes node as consumed by `NodeGroupForNode`: only the label map
is read, and of it only key membership. -/
structure K8sNode where
  labels : List (String × String)

/-- `vcp.nodeGroups` is the only provider state `NodeGroupForNode` reads. -/
structure VsphereCloudProvider where
  nodeGroups : List VsphereNodeGroup

/-- `vsphereCloudProvider.NodeGroupForNode`.  Go returns
`(cloudprovider.NodeGroup, error)`; we return the pair wrapped in an outer
`Option`, where `none` marks the one undefined execution: when the node
does not carry the master label and `vcp.nodeGroups` is empty,
`&(vcp.nodeGroups[0])` indexes an empty slice and the call panics rather
than returning.  The `Option String` component is the Go error, `none` for
nil. -/
def NodeGroupForNode (vcp : VsphereCloudProvider) (node : K8sNode) :
    Option (Option VsphereNodeGroup × Option String) :=
  if (node.labels.lookup "node-role.kubernetes.io/master").isSome then
    some (none, none)
  else
    match vcp.nodeGroups with
    | [] => none
    | g :: _ => some (some g, none)

/-- The node-group-spec count validation performed by `BuildVsphere` before
any group is constructed: zero specs and more than one spec are both fatal
(`klog.Fatalf` terminates the process, modelled as an error return);
exactly one spec proceeds. -/
def buildVsphereSpecGate {α : Type} (nodeGroupSpecs : List α) : Except String Unit :=
  if nodeGroupSpecs.length = 0 then
    .error "Must specify at least one node group with --nodes=<min>:<max>:<name>,..."
  else if nodeGroupSpecs.length > 1 then
    .error "Vsphere autoscaler only supports a single nodegroup for now"
  else
    .ok ()

/-- `true` exactly on Go's non-nil error results. -/
def isError {ε α : Type} : Except ε α → Bool
  | .error _ => true
  | .ok _ => false

end Vsphere

namespace Vsphere

/-! ## Concrete fixtures used by witness theorems -/

/-- A healthy platform: cluster tag `k8s-cluster-c` (id `t1`) is attached to
three VMs, node-group tag `k8s-nodegroup-g` (id `t2`) to two of them, and
any other tag id is unknown to the endpoint. -/
def testPlatform : VspherePlatform where
  getTags := .ok [⟨"t1", "k8s-cluster-c"⟩, ⟨"t2", "k8s-nodegroup-g"⟩]
  listAttachedObjects := fun tagID =>
    if tagID = "t1" then .ok [⟨"vm-1"⟩, ⟨"vm-2"⟩, ⟨"vm-3"⟩]
    else if tagID = "t2" then .ok [⟨"vm-1"⟩, ⟨"vm-2"⟩]
    else .error "com.vmware.vapi.std.errors.not_found"
  createVirtualMachine := fun _ _ _ _ => .ok ()

/-- Manager over `testPlatform` for cluster `c`. -/
def testManager : VsphereManager := ⟨"c", "dc", "pool", "tmpl", testPlatform⟩

/-- Node group `g` over `testManager`, bounds 1..5, cached target 2
(matching the live platform count). -/
def testGroup : VsphereNodeGroup := ⟨testManager, "g", 1, 5, 2⟩

/-! ## C1–C3: `IncreaseSize` -/

/-- C1: for `delta > 0` with the live platform-observed size plus `delta`
within `MaxSize()`, `IncreaseSize delta` succeeds, the new target size is
the prior target plus `delta`, and the manager's `createNodes` is invoked
exactly once, with exactly `delta` as the node count. -/
theorem increaseSize_success (ng : VsphereNodeGroup) (delta : Int) (size : Nat)
    (hpos : 0 < delta)
    (hsize : nodeGroupSize ng.vsphereManager ng.id = .ok size)
    (hbound : (size : Int) + delta ≤ MaxSize ng) :
    (IncreaseSize ng delta).result = .ok () ∧
    (IncreaseSize ng delta).ng.targetSize = ng.targetSize + delta ∧
    (IncreaseSize ng delta).createNodesCalls = [(ng.id, delta)] := by
  have hd : ¬ delta ≤ 0 := by omega
  have hb : ¬ ((size : Int) + delta > MaxSize ng) := by omega
  simp [IncreaseSize, hsize, hd, hb, createNodes]

/-- Witness for C1 on the concrete fixture: live size 2, delta 2, max 5. -/
theorem increaseSize_success_witness :
    (IncreaseSize testGroup 2).result = .ok () ∧
    (IncreaseSize testGroup 2).ng.targetSize = 4 ∧
    (IncreaseSize testGroup 2).createNodesCalls = [("g", 2)] := by
  have h := increaseSize_success testGroup 2 2 (by norm_num)
    (by rfl) (by norm_num [MaxSize, testGroup])
  exact ⟨h.1, h.2.1, h.2.2⟩

/-- The outcome (`result` component) of `IncreaseSize` does not depend on
the cached `targetSize`: the bound check reads only the live platform size
from the manager.  Shared helper for the C2 theorem. -/
theorem increaseSize_result_ignores_cached_target
    (ng : VsphereNodeGroup) (delta t : Int) :
    (IncreaseSize { ng with targetSize := t } delta).result =
      (IncreaseSize ng delta).result := by
  unfold IncreaseSize
  by_cases hd : delta ≤ 0
  · simp [hd]
  · simp only [hd, if_false]
    cases h : nodeGroupSize ng.vsphereManager ng.id with
    | error e => simp
    | ok size =>
      by_cases hb : ng.maxSize < (size : Int) + delta
      · simp [MaxSize, hb]
      · simp [MaxSize, hb, createNodes]

/-- C2: for `delta > 0` where the live platform-observed size plus `delta`
exceeds `MaxSize()`, `IncreaseSize delta` returns an error, the group state
(including `targetSize`) is unchanged, `createNodes` is never invoked, and
the outcome is independent of the cached `targetSize` (the bound check uses
the live size obtained from the manager inside the call). -/
theorem increaseSize_over_max (ng : VsphereNodeGroup) (delta : Int) (size : Nat)
    (hpos : 0 < delta)
    (hsize : nodeGroupSize ng.vsphereManager ng.id = .ok size)
    (hover : MaxSize ng < (size : Int) + delta) :
    isError (IncreaseSize ng delta).result = true ∧
    (IncreaseSize ng delta).ng = ng ∧
    (IncreaseSize ng delta).createNodesCalls = [] ∧
    (∀ t, (IncreaseSize { ng with targetSize := t } delta).result =
      (IncreaseSize ng delta).result) := by
  have hd : ¬ delta ≤ 0 := by omega
  have hb : (size : Int) + delta > MaxSize ng := by omega
  refine ⟨?_, ?_, ?_, fun t => increaseSize_result_ignores_cached_target ng delta t⟩ <;>
    simp [IncreaseSize, hsize, hd, hb, isError]

/-- Witness for C2 on the concrete fixture: live size 2, delta 10, max 5. -/
theorem increaseSize_over_max_witness :
    isError (IncreaseSize testGroup 10).result = true ∧
    (IncreaseSize testGroup 10).ng = testGroup ∧
    (IncreaseSize testGroup 10).createNodesCalls = [] ∧
    (IncreaseSize { testGroup with targetSize := 99 } 10).result =
      (IncreaseSize testGroup 10).result := by
  have h := increaseSize_over_max testGroup 10 2 (by norm_num)
    (by rfl) (by norm_num [MaxSize, testGroup])
  exact ⟨h.1, h.2.1, h.2.2.1, h.2.2.2 99⟩

/-- C3: for `delta ≤ 0`, `IncreaseSize delta` returns the invalid-argument
error, the group state is not mutated, and `createNodes` is not invoked. -/
theorem increaseSize_nonpositive (ng : VsphereNodeGroup) (delta : Int)
    (h : delta ≤ 0) :
    (IncreaseSize ng delta).result = .error "node group size increase must be positive" ∧
    (IncreaseSize ng delta).ng = ng ∧
    (IncreaseSize ng delta).createNodesCalls = [] := by
  simp [IncreaseSize, h]

/-- Witness for C3 at `delta = 0` and `delta = -3`. -/
theorem increaseSize_nonpositive_witness :
    (IncreaseSize testGroup 0).result = .error "node group size increase must be positive" ∧
    (IncreaseSize testGroup 0).ng = testGroup ∧
    (IncreaseSize testGroup (-3)).ng = testGroup := by
  have h0 := increaseSize_nonpositive testGroup 0 (by norm_num)
  have h3 := increaseSize_nonpositive testGroup (-3) (by norm_num)
  exact ⟨h0.1, h0.2.1, h3.2.1⟩

end Vsphere

namespace Vsphere

/-! ## C4: tag-intersection membership; C6: swallowed platform errors -/

/-- `Contain` decides list membership. -/
theorem contain_iff_mem (x : ManagedObjectRef) (l : List ManagedObjectRef) :
    Contain x l = true ↔ x ∈ l := by
  induction l with
  | nil => simp [Contain]
  | cons a l ih => by_cases h : x = a <;> simp [Contain, h, ih]

/-- `ContainObjects` computes the set intersection (by reference equality)
of parents and children: membership in its result is exactly joint
membership. -/
theorem containObjects_mem (A B : List ManagedObjectRef) (x : ManagedObjectRef) :
    x ∈ ContainObjects A B ↔ x ∈ A ∧ x ∈ B := by
  induction B with
  | nil => simp [ContainObjects]
  | cons b B ih =>
    by_cases h : Contain b A = true
    · have hbA : b ∈ A := (contain_iff_mem b A).mp h
      by_cases hx : x = b
      · subst hx; simp [ContainObjects, h, hbA]
      · simp [ContainObjects, h, hx, ih]
    · have hbA : b ∉ A := fun hm => h ((contain_iff_mem b A).mpr hm)
      by_cases hx : x = b
      · subst hx; simp [ContainObjects, h, ih, hbA]
      · simp [ContainObjects, h, hx, ih]

/-- A tag name carried by no listed tag resolves to the empty id `""`
(this also covers a failed `GetTags`, whose error is discarded). -/
theorem getTagID_of_not_exists (c : VspherePlatform) (tag : String)
    (hmiss : ∀ ts, c.getTags = .ok ts → ∀ t ∈ ts, t.name ≠ tag) :
    GetTagID c tag = "" := by
  cases h : c.getTags with
  | error e => simp [GetTagID, h]
  | ok ts =>
    have hfind : ts.find? (fun t => t.name = tag) = none := by
      rw [List.find?_eq_none]
      intro t ht
      simp [hmiss ts h t ht]
    simp [GetTagID, h, hfind]

/-- C4: the resolved membership of a node group is exactly the set
intersection of the cluster-tagged objects and the node-group-tagged
objects, `nodeGroupSize` returns its cardinality (never an error), and a
tag that does not exist (no listed tag carries its name, and the platform
attaches no objects to the empty tag id) resolves to the empty set rather
than an error. -/
theorem nodeGroupSize_is_tag_intersection (mgr : VsphereManager) (group : String)
    (c : VspherePlatform) (tag : String)
    (hmiss : ∀ ts, c.getTags = .ok ts → ∀ t ∈ ts, t.name ≠ tag)
    (hempty : ∀ objs, c.listAttachedObjects "" = .ok objs → objs = []) :
    (∀ x, x ∈ ContainObjects
        (GetObjectsFromTag mgr.vsphereClient ("k8s-cluster-" ++ mgr.clusterName))
        (GetObjectsFromTag mgr.vsphereClient ("k8s-nodegroup-" ++ group)) ↔
      x ∈ GetObjectsFromTag mgr.vsphereClient ("k8s-cluster-" ++ mgr.clusterName) ∧
      x ∈ GetObjectsFromTag mgr.vsphereClient ("k8s-nodegroup-" ++ group)) ∧
    nodeGroupSize mgr group = .ok (ContainObjects
        (GetObjectsFromTag mgr.vsphereClient ("k8s-cluster-" ++ mgr.clusterName))
        (GetObjectsFromTag mgr.vsphereClient ("k8s-nodegroup-" ++ group))).length ∧
    GetObjectsFromTag c tag = [] := by
  refine ⟨fun x => containObjects_mem _ _ x, rfl, ?_⟩
  have hid := getTagID_of_not_exists c tag hmiss
  cases h : c.listAttachedObjects "" with
  | error e => simp [GetObjectsFromTag, hid, h]
  | ok objs => simp [GetObjectsFromTag, hid, h, hempty objs h]

/-- Witness for C4 on the concrete fixture: group `g` resolves to the
intersection (2 of 3 cluster VMs), and an unknown tag resolves to `[]`. -/
theorem nodeGroupSize_is_tag_intersection_witness :
    nodeGroupSize testManager "g" = .ok (ContainObjects
        (GetObjectsFromTag testPlatform "k8s-cluster-c")
        (GetObjectsFromTag testPlatform "k8s-nodegroup-g")).length ∧
    GetObjectsFromTag testPlatform "k8s-nodegroup-missing" = [] ∧
    nodeGroupSize testManager "g" = .ok 2 := by
  have hmiss : ∀ ts, testPlatform.getTags = .ok ts →
      ∀ t ∈ ts, t.name ≠ "k8s-nodegroup-missing" := by
    intro ts hts t ht
    simp only [testPlatform] at hts
    injection hts with hts
    subst hts
    fin_cases ht <;> decide
  have hempty : ∀ objs, testPlatform.listAttachedObjects "" = .ok objs → objs = [] := by
    intro objs h
    rw [show testPlatform.listAttachedObjects "" =
      Except.error "com.vmware.vapi.std.errors.not_found" from rfl] at h
    exact Except.noConfusion h
  have h := nodeGroupSize_is_tag_intersection testManager "g" testPlatform
    "k8s-nodegroup-missing" hmiss hempty
  exact ⟨h.2.1, h.2.2, rfl⟩

/-- An unreachable platform: every remote call fails. -/
def downPlatform : VspherePlatform where
  getTags := .error "ServerFaultCode: endpoint unreachable"
  listAttachedObjects := fun _ => .error "ServerFaultCode: endpoint unreachable"
  createVirtualMachine := fun _ _ _ _ => .error "ServerFaultCode: endpoint unreachable"

/-- Manager over the unreachable platform. -/
def downManager : VsphereManager := ⟨"c", "dc", "pool", "tmpl", downPlatform⟩

/-- C6 (code-bug evidence): `GetTagID` and `GetObjectsFromTag` discard the
errors of `GetTags`/`ListAttachedObjects`, so when the platform is
unreachable mid-query `nodeGroupSize` reports `(0, nil)` and `getNodes`
reports `([], nil)` — the failure is silently converted into empty
membership, never propagated; in general neither function can return a
non-nil error for any manager and group, contradicting the claim (and the
dead error-propagation code in `IncreaseSize` and `Nodes`). -/
theorem membership_errors_swallowed :
    nodeGroupSize downManager "g" = .ok 0 ∧
    getNodes downManager "g" = .ok [] ∧
    (∀ (mgr : VsphereManager) (group : String),
      isError (nodeGroupSize mgr group) = false ∧
      isError (getNodes mgr group) = false) :=
  ⟨rfl, rfl, fun _ _ => ⟨rfl, rfl⟩⟩

end Vsphere

namespace Vsphere

/-! ## C7: VM naming; C8: partial-failure tolerance -/

/-- A platform with no tags at all: every node group has zero live members. -/
def emptyPlatform : VspherePlatform where
  getTags := .ok []
  listAttachedObjects := fun _ => .error "com.vmware.vapi.std.errors.not_found"
  createVirtualMachine := fun _ _ _ _ => .ok ()

/-- Manager over `emptyPlatform` for cluster `c` (live group size 0). -/
def emptyManager : VsphereManager := ⟨"c", "dc", "pool", "tmpl", emptyPlatform⟩

/-- A platform where all three cluster VMs also carry the group tag
(live group size 3). -/
def fullPlatform : VspherePlatform where
  getTags := .ok [⟨"t1", "k8s-cluster-c"⟩, ⟨"t2", "k8s-nodegroup-g"⟩]
  listAttachedObjects := fun tagID =>
    if tagID = "t1" then .ok [⟨"vm-1"⟩, ⟨"vm-2"⟩, ⟨"vm-3"⟩]
    else if tagID = "t2" then .ok [⟨"vm-1"⟩, ⟨"vm-2"⟩, ⟨"vm-3"⟩]
    else .error "com.vmware.vapi.std.errors.not_found"
  createVirtualMachine := fun _ _ _ _ => .ok ()

/-- Manager over `fullPlatform` for cluster `c` (live group size 3). -/
def fullManager : VsphereManager := ⟨"c", "dc", "pool", "tmpl", fullPlatform⟩

/-- Counterexample to C7: the VM names synthesized by `createNodes` do not
depend on the current platform-observed membership count.  Two managers
whose live counts for group `g` differ (0 versus 3) produce identical
names for `createNodes("g", 2)`, namely `c-g-03`, `c-g-04` — the sequence
numbers are `i + count + 1` for requested count 2, so were each sequence
the platform count plus a fixed offset, counts 0 and 3 would have to yield
different names. -/
theorem createNodesNames_ignore_platform_count :
    nodeGroupSize emptyManager "g" = .ok 0 ∧
    nodeGroupSize fullManager "g" = .ok 3 ∧
    createNodesNames emptyManager "g" 2 = createNodesNames fullManager "g" 2 ∧
    createNodesNames fullManager "g" 2 = ["c-g-03", "c-g-04"] :=
  ⟨rfl, rfl, rfl, rfl⟩

/-- C7 as amended: `createNodes(nodeGroupID, count)` synthesizes, for the
`i`-th of exactly `count` VMs, the name
`<clusterName>-<nodeGroupID>-<NN>` with `NN` the two-digit-padded decimal
of `i + count + 1` — the sequence is derived from the requested count, not
from the current platform-observed membership count — and attempts one
clone per name. -/
theorem createNodesNames_from_requested_count (mgr : VsphereManager)
    (group : String) (count : Int) :
    (createNodesNames mgr group count).length = count.toNat ∧
    (∀ i (h : i < (createNodesNames mgr group count).length),
      (createNodesNames mgr group count).get ⟨i, h⟩ =
        mgr.clusterName ++ "-" ++ group ++ "-" ++ format02d (i + count.toNat + 1)) ∧
    (createNodes mgr group count).1.map Prod.fst = createNodesNames mgr group count := by
  refine ⟨by simp [createNodesNames], ?_, ?_⟩
  · intro i h
    simp only [createNodesNames, List.get_eq_getElem, List.getElem_map, List.getElem_range]
    rfl
  · simp only [createNodes, List.map_map]
    rw [show (Prod.fst ∘ fun name => (name, createNode mgr name)) = id from rfl,
      List.map_id]

/-- Witness for the amended C7 at `count = 2` on the concrete fixture. -/
theorem createNodesNames_from_requested_count_witness :
    (createNodesNames testManager "g" 2).length = 2 ∧
    (createNodesNames testManager "g" 2).get ⟨0, by decide⟩ = "c-g-03" := by
  have h := createNodesNames_from_requested_count testManager "g" 2
  exact ⟨h.1, (h.2.1 0 (by decide)).trans rfl⟩

/-- A platform on which cloning the first requested VM name fails (the
other clones succeed). -/
def flakyPlatform : VspherePlatform where
  getTags := .ok [⟨"t1", "k8s-cluster-c"⟩, ⟨"t2", "k8s-nodegroup-g"⟩]
  listAttachedObjects := fun tagID =>
    if tagID = "t1" then .ok [⟨"vm-1"⟩, ⟨"vm-2"⟩, ⟨"vm-3"⟩]
    else if tagID = "t2" then .ok [⟨"vm-1"⟩, ⟨"vm-2"⟩]
    else .error "com.vmware.vapi.std.errors.not_found"
  createVirtualMachine := fun name _ _ _ =>
    if name = "c-g-03" then .error "The name 'c-g-03' already exists." else .ok ()

/-- Manager over `flakyPlatform`. -/
def flakyManager : VsphereManager := ⟨"c", "dc", "pool", "tmpl", flakyPlatform⟩

/-- Node group `g` over `flakyManager`, bounds 1..5, cached target 2. -/
def flakyGroup : VsphereNodeGroup := ⟨flakyManager, "g", 1, 5, 2⟩

/-- C8: even when the clone of the `j`-th VM of an in-bounds
`IncreaseSize(delta)` fails, the loop still performs all `delta` clone
attempts (the per-VM result is discarded), `createNodes` still returns
nil, and the enclosing `IncreaseSize` still returns success — partial
failure is tolerated and not rolled back. -/
theorem increaseSize_tolerates_clone_failure (ng : VsphereNodeGroup)
    (delta : Int) (size j : Nat)
    (hpos : 0 < delta)
    (hsize : nodeGroupSize ng.vsphereManager ng.id = .ok size)
    (hbound : (size : Int) + delta ≤ MaxSize ng)
    (hj : j < (createNodes ng.vsphereManager ng.id delta).1.length)
    (hfail : isError ((createNodes ng.vsphereManager ng.id delta).1.get ⟨j, hj⟩).2 = true) :
    (createNodes ng.vsphereManager ng.id delta).1.length = delta.toNat ∧
    (createNodes ng.vsphereManager ng.id delta).2 = .ok () ∧
    (IncreaseSize ng delta).result = .ok () := by
  have hd : ¬ delta ≤ 0 := by omega
  have hb : ¬ ((size : Int) + delta > MaxSize ng) := by omega
  exact ⟨by simp [createNodes, createNodesNames], rfl,
    by simp [IncreaseSize, hsize, hd, hb, createNodes]⟩

/-- Witness for C8: on `flakyGroup` (live size 2, max 5), `IncreaseSize 2`
attempts clones `c-g-03` (which fails) and `c-g-04`, and still succeeds. -/
theorem increaseSize_tolerates_clone_failure_witness :
    (createNodes flakyManager "g" 2).1.length = 2 ∧
    (createNodes flakyManager "g" 2).2 = .ok () ∧
    (IncreaseSize flakyGroup 2).result = .ok () := by
  have h := increaseSize_tolerates_clone_failure flakyGroup 2 2 0 (by norm_num)
    rfl (by norm_num [MaxSize, flakyGroup]) (by decide) (by rfl)
  exact ⟨h.1, h.2.1, h.2.2⟩

end Vsphere

namespace Vsphere

/-! ## C9–C10: `NodeGroupForNode` and construction-time validation -/

/-- A node carrying the control-plane/master marker label. -/
def masterNode : K8sNode := ⟨[("node-role.kubernetes.io/master", "")]⟩

/-- A worker node without the master label. -/
def workerNode : K8sNode := ⟨[("kubernetes.io/hostname", "worker-1")]⟩

/-- Provider with the single registered group `testGroup`. -/
def testProvider : VsphereCloudProvider := ⟨[testGroup]⟩

/-- Provider with no registered groups. -/
def emptyProvider : VsphereCloudProvider := ⟨[]⟩

/-- C9: for a node carrying the `node-role.kubernetes.io/master` label,
`NodeGroupForNode` returns nil group (and nil error); for any other node,
it returns the first registered node group. -/
theorem nodeGroupForNode_master_nil_else_first
    (vcp : VsphereCloudProvider) (node : K8sNode)
    (g : VsphereNodeGroup) (rest : List VsphereNodeGroup)
    (hgroups : vcp.nodeGroups = g :: rest) :
    ((node.labels.lookup "node-role.kubernetes.io/master").isSome = true →
      NodeGroupForNode vcp node = some (none, none)) ∧
    ((node.labels.lookup "node-role.kubernetes.io/master").isSome = false →
      NodeGroupForNode vcp node = some (some g, none)) := by
  constructor <;> intro h <;> simp [NodeGroupForNode, h, hgroups]

/-- Witness for C9: with one registered group, the master node maps to no
group and the worker node to that group. -/
theorem nodeGroupForNode_master_nil_else_first_witness :
    NodeGroupForNode testProvider masterNode = some (none, none) ∧
    NodeGroupForNode testProvider workerNode = some (some testGroup, none) := by
  have hm := nodeGroupForNode_master_nil_else_first testProvider masterNode testGroup [] rfl
  have hw := nodeGroupForNode_master_nil_else_first testProvider workerNode testGroup [] rfl
  exact ⟨hm.1 rfl, hw.2 rfl⟩

/-- C10: whenever `NodeGroupForNode` returns at all, its error component is
nil; with zero registered groups a node without the master label makes it
index an empty slice, so the call has no defined result; and the
construction path (`BuildVsphere`) fails fast unless exactly one node-group
spec is supplied, enforcing the totality precondition. -/
theorem nodeGroupForNode_partiality_and_spec_gate :
    (∀ (vcp : VsphereCloudProvider) (node : K8sNode)
      (r : Option VsphereNodeGroup × Option String),
      NodeGroupForNode vcp node = some r → r.2 = none) ∧
    (∀ node : K8sNode,
      (node.labels.lookup "node-role.kubernetes.io/master").isSome = false →
      NodeGroupForNode ⟨[]⟩ node = none) ∧
    (∀ specs : List String, buildVsphereSpecGate specs = .ok () ↔ specs.length = 1) := by
  refine ⟨?_, ?_, ?_⟩
  · intro vcp node r h
    by_cases hm : (node.labels.lookup "node-role.kubernetes.io/master").isSome = true
    · rw [NodeGroupForNode, if_pos hm] at h
      cases h
      rfl
    · rw [NodeGroupForNode, if_neg hm] at h
      cases hg : vcp.nodeGroups with
      | nil => rw [hg] at h; cases h
      | cons g rest => rw [hg] at h; cases h; rfl
  · intro node h
    simp [NodeGroupForNode, h]
  · intro specs
    by_cases h1 : specs.length = 0
    · simp [buildVsphereSpecGate, h1]
    · by_cases h2 : specs.length > 1
      · have h2' : ¬ specs.length ≤ 1 := by omega
        simp [buildVsphereSpecGate, h1, h2]
        omega
      · have he : specs.length = 1 := by omega
        simp [buildVsphereSpecGate, h1, h2, he]

/-- Witness for C10: the error component is nil on a defined call, the
zero-group worker-node call is undefined, and the spec gate accepts a
single spec string. -/
theorem nodeGroupForNode_partiality_and_spec_gate_witness :
    ((none, none) : Option VsphereNodeGroup × Option String).2 = none ∧
    NodeGroupForNode emptyProvider workerNode = none ∧
    (buildVsphereSpecGate ["1:5:g"] = .ok () ↔ (["1:5:g"] : List String).length = 1) := by
  have h := nodeGroupForNode_partiality_and_spec_gate
  exact ⟨h.1 testProvider masterNode (none, none) rfl, h.2.1 workerNode rfl,
    h.2.2 ["1:5:g"]⟩

end Vsphere
